/-
  Verification of the SleekXMPP roster multiplexer
  (`sleekxmpp/roster/multi.py`, class `Roster`).

  The class owns a dict `_rosters` mapping bare JID strings to `RosterNode`
  objects, two default flags `auto_authorize` / `auto_subscribe`, an owning
  `xmpp` reference and an optional datastore `db`.  We embed the dict as an
  insertion-ordered association list (Python dicts preserve insertion order
  and have unique keys), and object identity of nodes as a creation stamp
  `uid` drawn from a counter held by the collection.
-/
import Mathlib

set_option autoImplicit false

namespace SleekRoster

/-- Modelled from the spec: the `JID` class (`sleekxmpp.xmlstream.JID`) is not
part of the analysed source.  Per the spec a network identity has a full form
(identity + resource) and a bare form (identity only); `bare` is the bare form
used as a map key. -/
structure JID where
  bare : String
  resource : String
deriving DecidableEq, Repr

/-- Characters of an identity up to (excluding) the resource separator. -/
def bareChars : List Char → List Char
  | [] => []
  | c :: cs => if c = '/' then [] else c :: bareChars cs

/-- Modelled from the spec: normalization of a string-form identity to its
bare form (everything before the resource separator); the spec calls this
`bareForm(identity) -> string`. -/
def bareOfString (s : String) : String :=
  ⟨bareChars s.data⟩

/-- An identity value presented to the collection: either a `JID` object or a
plain string, mirroring the dynamic `isinstance(key, JID)` test in the
source. -/
inductive Identity where
  | jid (j : JID)
  | str (s : String)
deriving DecidableEq, Repr

/-- The bare form of an identity value (spec: every identity has a bare form;
for a string value it is obtained by normalization). -/
def Identity.bareForm : Identity → String
  | .jid j => j.bare
  | .str s => bareOfString s

/-- The map key the source actually computes from an input: mirrors
`if isinstance(key, JID): key = key.bare` — a `JID` object is replaced by its
bare form, any other value is used verbatim. -/
def Identity.toKey : Identity → String
  | .jid j => j.bare
  | .str s => s

/-- Modelled from the spec: the default values of a `RosterNode`'s own
`auto_authorize` / `auto_subscribe` flags at construction.  `RosterNode` is an
external collaborator (not in the analysed source), so its internal defaults
are kept abstract as parameters. -/
structure NodeDefaults where
  auth : Bool
  sub : Bool
deriving DecidableEq, Repr

/-- Modelled from the spec: the `RosterNode` collaborator as seen from the
collection: its construction arguments `(connectionRef, identity, datastore)`,
mutable flags `auto_authorize` / `auto_subscribe`, a `reset()` operation and a
backend-setter.  `setBackendLog` records the datastore ids passed to its
backend-setter and `resetCount` the number of `reset()` calls, so that the
collection's obligations ("called exactly once on every node") are visible
states.  `uid` stamps the node object's identity. -/
structure RosterNode where
  xmpp : Nat
  jid : String
  db : Option Nat
  auto_authorize : Bool
  auto_subscribe : Bool
  setBackendLog : List Nat
  resetCount : Nat
  uid : Nat
deriving DecidableEq, Repr

/-- Modelled from the spec: `RosterNode` construction
`construct(connectionRef, identity, datastore)`; the node's own flag defaults
come from the abstract `NodeDefaults`. -/
def RosterNode.new (xmpp : Nat) (jid : String) (db : Option Nat)
    (nd : NodeDefaults) (uid : Nat) : RosterNode :=
  { xmpp := xmpp, jid := jid, db := db,
    auto_authorize := nd.auth, auto_subscribe := nd.sub,
    setBackendLog := [], resetCount := 0, uid := uid }

/-- Modelled from the spec: the node-level backend-setter
`setBackend(datastore)` rebinds the node's persistence reference; we log the
call. -/
def RosterNode.set_backend (n : RosterNode) (did : Nat) : RosterNode :=
  { n with db := some did, setBackendLog := n.setBackendLog ++ [did] }

/-- Modelled from the spec: the node-level `reset()` clears transient state
and preserves identity; we record only that the call happened. -/
def RosterNode.reset (n : RosterNode) : RosterNode :=
  { n with resetCount := n.resetCount + 1 }

/-- Modelled from the spec: the datastore collaborator, consumed only through
`entries(owner = none, filter = empty) -> sequence of identities`.  `did`
distinguishes datastore objects. -/
structure Datastore where
  did : Nat
  entries : List Identity
deriving DecidableEq, Repr

/-- The state of `Roster` (`multi.py`): `xmpp`, `db`, the two default flags
(initialized to `True` in `__init__`), and the `_rosters` dict, embedded as an
insertion-ordered association list.  `nextUid` stamps newly allocated node
objects. -/
structure Roster where
  xmpp : Nat
  db : Option Datastore
  auto_authorize : Bool
  auto_subscribe : Bool
  rosters : List (String × RosterNode)
  nextUid : Nat
deriving DecidableEq, Repr

/-- Dict lookup `self._rosters[key]` / membership `key in self._rosters` on
the association list. -/
def findNode? (k : String) : List (String × RosterNode) → Option RosterNode
  | [] => none
  | p :: ps => if p.1 = k then some p.2 else findNode? k ps

/-- `key in self._rosters`. -/
def Roster.contains (r : Roster) (k : String) : Bool :=
  (findNode? k r.rosters).isSome

/-- `self._rosters.keys()` (also what `__iter__` yields). -/
def Roster.keys (r : Roster) : List String :=
  r.rosters.map (fun p => p.1)

/-- In-place mutation of the node stored at a key (`self._rosters[key].f = v`
in Python mutates the stored object). -/
def Roster.updateNode (r : Roster) (k : String) (f : RosterNode → RosterNode) :
    Roster :=
  { r with rosters := r.rosters.map (fun p => if p.1 = k then (p.1, f p.2) else p) }

/-- `Roster.add(node)`: normalize a `JID` to its bare form, then
`if node not in self._rosters: self._rosters[node] = RosterNode(self.xmpp,
node, self.db)`. -/
def Roster.add (r : Roster) (node : Identity) (nd : NodeDefaults) : Roster :=
  let key := node.toKey
  if (findNode? key r.rosters).isSome then r
  else
    { r with
      rosters := r.rosters ++
        [(key, RosterNode.new r.xmpp key (r.db.map Datastore.did) nd r.nextUid)],
      nextUid := r.nextUid + 1 }

/-- `Roster.__init__(xmpp, db=None)`: sets `auto_authorize` and
`auto_subscribe` to `True`, starts with an empty dict, and if a datastore was
supplied, `add`s every identity from `db.entries(None, {})`. -/
def Roster.init (xmpp : Nat) (db : Option Datastore) (nd : NodeDefaults) :
    Roster :=
  let r : Roster :=
    { xmpp := xmpp, db := db, auto_authorize := true, auto_subscribe := true,
      rosters := [], nextUid := 0 }
  match db with
  | none => r
  | some d => d.entries.foldl (fun acc node => acc.add node nd) r

/-- `Roster.__getitem__(key)` (the spec's `lookupOrCreate`): normalize a `JID`
to its bare form; if the key is absent, `self.add(key)` and then write the
collection's current `auto_authorize` and `auto_subscribe` into the new node
(two separate assignments, as in the source); finally return
`self._rosters[key]`.  The state and the returned node are both produced. -/
def Roster.getItem (r : Roster) (key : Identity) (nd : NodeDefaults) :
    Roster × Option RosterNode :=
  let k := key.toKey
  if (findNode? k r.rosters).isSome then (r, findNode? k r.rosters)
  else
    let r1 := r.add (.str k) nd
    let r2 := r1.updateNode k (fun n => { n with auto_authorize := r1.auto_authorize })
    let r3 := r2.updateNode k (fun n => { n with auto_subscribe := r2.auto_subscribe })
    (r3, findNode? k r3.rosters)

/-- `Roster.set_backend(db=None)`: assigns `self.db = db`, then iterates
`self.db.entries(None, {})` adding any new identities, then calls
`set_backend(db)` on every node in the dict.  With `db = None` the
enumeration `self.db.entries(...)` faults (`None` has no such attribute):
that fault is the `none` result.  (The assignment `self.db = None` does
happen before the fault in the source; the claims here concern only that the
call fails rather than completes.) -/
def Roster.set_backend (r : Roster) (db : Option Datastore) (nd : NodeDefaults) :
    Option Roster :=
  match db with
  | none => none
  | some d =>
    let r1 : Roster := { r with db := some d }
    let r2 := d.entries.foldl (fun acc node => acc.add node nd) r1
    some { r2 with
      rosters := r2.rosters.map (fun p => (p.1, p.2.set_backend d.did)) }

/-- `Roster.reset()`: `for node in self: self[node].reset()` — iterates the
keys and calls `reset` on each stored node (every key is present, so
`self[node]` takes the pure-read branch of `__getitem__` and the `.reset()`
mutates the stored object in place). -/
def Roster.resetAll (r : Roster) : Roster :=
  r.keys.foldl (fun acc k => acc.updateNode k RosterNode.reset) r

/-- The attribute assignment `roster.auto_authorize = b` on the collection. -/
def Roster.setAutoAuthorize (r : Roster) (b : Bool) : Roster :=
  { r with auto_authorize := b }

/-- The attribute assignment `roster.auto_subscribe = b` on the collection. -/
def Roster.setAutoSubscribe (r : Roster) (b : Bool) : Roster :=
  { r with auto_subscribe := b }

/-- Modelled from the spec: the spec does not fix the normalization rules of
the external identity library, but an identity value whose bare form is empty
carries no identity at all and fails normalization under any rules. -/
def Identity.malformed (i : Identity) : Bool :=
  i.bareForm = ""

/-! ### Association-list lemmas -/

theorem findNode?_append (k : String) (l1 l2 : List (String × RosterNode)) :
    findNode? k (l1 ++ l2) =
      match findNode? k l1 with
      | some n => some n
      | none => findNode? k l2 := by
  induction l1 with
  | nil => simp [findNode?]
  | cons p ps ih =>
    simp only [List.cons_append, findNode?]
    split <;> simp [ih]

theorem findNode?_isSome_iff (k : String) (l : List (String × RosterNode)) :
    (findNode? k l).isSome ↔ k ∈ l.map (fun p => p.1) := by
  induction l with
  | nil => simp [findNode?]
  | cons p ps ih =>
    by_cases h : p.1 = k
    · simp [findNode?, h]
    · simp [findNode?, h, Ne.symm h, ih]

theorem findNode?_map_self (k : String) (f : RosterNode → RosterNode)
    (l : List (String × RosterNode)) :
    findNode? k (l.map (fun p => if p.1 = k then (p.1, f p.2) else p)) =
      (findNode? k l).map f := by
  induction l with
  | nil => simp [findNode?]
  | cons p ps ih =>
    by_cases h : p.1 = k
    · simp [findNode?, h]
    · simp [findNode?, h, ih]

theorem findNode?_map_ne (k k' : String) (h : k' ≠ k)
    (f : RosterNode → RosterNode) (l : List (String × RosterNode)) :
    findNode? k' (l.map (fun p => if p.1 = k then (p.1, f p.2) else p)) =
      findNode? k' l := by
  induction l with
  | nil => simp [findNode?]
  | cons p ps ih =>
    by_cases hp : p.1 = k
    · have hpk : p.1 ≠ k' := by rw [hp]; exact Ne.symm h
      simp [findNode?, hp, hpk, Ne.symm h, ih]
    · by_cases hp' : p.1 = k' <;> simp [findNode?, hp, hp', h, ih]

theorem findNode?_map_value (k : String) (g : RosterNode → RosterNode)
    (l : List (String × RosterNode)) :
    findNode? k (l.map (fun p => (p.1, g p.2))) = (findNode? k l).map g := by
  induction l with
  | nil => simp [findNode?]
  | cons p ps ih =>
    by_cases h : p.1 = k <;> simp [findNode?, h, ih]

theorem keys_map_fst_preserving (l : List (String × RosterNode))
    (f : String × RosterNode → String × RosterNode)
    (hf : ∀ p, (f p).1 = p.1) :
    (l.map f).map (fun p => p.1) = l.map (fun p => p.1) := by
  induction l with
  | nil => rfl
  | cons p ps ih => simp [hf, ih]

/-! ### Lemmas about `add` -/

theorem Roster.add_of_found (r : Roster) (i : Identity) (nd : NodeDefaults)
    (h : (findNode? i.toKey r.rosters).isSome = true) :
    r.add i nd = r := by
  simp [Roster.add, h]

theorem Roster.add_of_absent (r : Roster) (i : Identity) (nd : NodeDefaults)
    (h : findNode? i.toKey r.rosters = none) :
    r.add i nd =
      { r with
        rosters := r.rosters ++
          [(i.toKey, RosterNode.new r.xmpp i.toKey (r.db.map Datastore.did) nd r.nextUid)],
        nextUid := r.nextUid + 1 } := by
  simp [Roster.add, h]

theorem Roster.keys_add (r : Roster) (i : Identity) (nd : NodeDefaults) :
    (r.add i nd).keys =
      if (findNode? i.toKey r.rosters).isSome then r.keys
      else r.keys ++ [i.toKey] := by
  by_cases h : (findNode? i.toKey r.rosters).isSome <;>
    simp [Roster.add, Roster.keys, h]

theorem Roster.findNode?_add_self (r : Roster) (i : Identity) (nd : NodeDefaults) :
    (findNode? i.toKey (r.add i nd).rosters).isSome := by
  by_cases h : (findNode? i.toKey r.rosters).isSome
  · rw [r.add_of_found i nd h]; exact h
  · rw [Option.not_isSome_iff_eq_none] at h
    rw [r.add_of_absent i nd h]
    simp [findNode?_append, h, findNode?]

theorem Roster.findNode?_add_preserved (r : Roster) (i : Identity)
    (nd : NodeDefaults) (k : String) (n : RosterNode)
    (h : findNode? k r.rosters = some n) :
    findNode? k (r.add i nd).rosters = some n := by
  by_cases hc : (findNode? i.toKey r.rosters).isSome
  · rw [r.add_of_found i nd hc]; exact h
  · rw [Option.not_isSome_iff_eq_none] at hc
    rw [r.add_of_absent i nd hc]
    simp [findNode?_append, h]

theorem Roster.add_frame (r : Roster) (i : Identity) (nd : NodeDefaults) :
    (r.add i nd).xmpp = r.xmpp ∧ (r.add i nd).db = r.db ∧
    (r.add i nd).auto_authorize = r.auto_authorize ∧
    (r.add i nd).auto_subscribe = r.auto_subscribe := by
  by_cases h : (findNode? i.toKey r.rosters).isSome <;> simp [Roster.add, h]

theorem Roster.keys_nodup_add (r : Roster) (i : Identity) (nd : NodeDefaults)
    (h : r.keys.Nodup) : (r.add i nd).keys.Nodup := by
  rw [r.keys_add i nd]
  by_cases hc : (findNode? i.toKey r.rosters).isSome
  · simpa [hc] using h
  · have hmem : i.toKey ∉ r.keys := by
      rw [Roster.keys, ← findNode?_isSome_iff]
      simpa using hc
    rw [if_neg hc, ← List.concat_eq_append]
    exact List.Nodup.concat hmem h

/-! ### Lemmas about `__getitem__` -/

/-- The node that the creation path of `__getitem__` ends up storing: built by
`RosterNode(self.xmpp, key, self.db)` and then given the collection's current
default flags. -/
def Roster.freshNode (r : Roster) (k : String) : RosterNode :=
  { xmpp := r.xmpp, jid := k, db := r.db.map Datastore.did,
    auto_authorize := r.auto_authorize, auto_subscribe := r.auto_subscribe,
    setBackendLog := [], resetCount := 0, uid := r.nextUid }

theorem map_update_append_absent (k : String) (f : RosterNode → RosterNode)
    (l : List (String × RosterNode)) (n : RosterNode)
    (h : findNode? k l = none) :
    (l ++ [(k, n)]).map (fun p => if p.1 = k then (p.1, f p.2) else p) =
      l ++ [(k, f n)] := by
  induction l with
  | nil => simp
  | cons p ps ih =>
    by_cases hp : p.1 = k
    · simp [findNode?, hp] at h
    · have ht : findNode? k ps = none := by simpa [findNode?, hp] using h
      simp [hp, ih ht]

theorem Roster.getItem_hit (r : Roster) (key : Identity) (nd : NodeDefaults)
    (h : (findNode? key.toKey r.rosters).isSome = true) :
    r.getItem key nd = (r, findNode? key.toKey r.rosters) := by
  simp [Roster.getItem, h]

theorem Identity.toKey_str (s : String) : Identity.toKey (.str s) = s := rfl

theorem Roster.getItem_miss (r : Roster) (key : Identity) (nd : NodeDefaults)
    (h : findNode? key.toKey r.rosters = none) :
    r.getItem key nd =
      ({ r with rosters := r.rosters ++ [(key.toKey, r.freshNode key.toKey)],
                nextUid := r.nextUid + 1 },
       some (r.freshNode key.toKey)) := by
  have hadd := r.add_of_absent (.str key.toKey) nd (by simpa [Identity.toKey_str] using h)
  rw [Identity.toKey_str] at hadd
  simp only [Roster.getItem, h, Option.isSome_none, Bool.false_eq_true, if_false,
    Identity.toKey_str, hadd, Roster.updateNode]
  rw [map_update_append_absent key.toKey
      (fun n => { n with auto_authorize := r.auto_authorize }) r.rosters _ h,
    map_update_append_absent key.toKey
      (fun n => { n with auto_subscribe := r.auto_subscribe }) r.rosters _ h,
    findNode?_append, h]
  simp [findNode?, Roster.freshNode, RosterNode.new]

/-- `__getitem__` always returns the node now stored under the computed key. -/
theorem Roster.getItem_found (r : Roster) (key : Identity) (nd : NodeDefaults) :
    (r.getItem key nd).2 = findNode? key.toKey ((r.getItem key nd).1).rosters ∧
    ((r.getItem key nd).2).isSome = true := by
  by_cases h : (findNode? key.toKey r.rosters).isSome
  · rw [r.getItem_hit key nd h]; exact ⟨rfl, h⟩
  · rw [Option.not_isSome_iff_eq_none] at h
    rw [r.getItem_miss key nd h]
    constructor
    · simp [findNode?_append, h, findNode?]
    · simp

theorem Roster.keys_getItem (r : Roster) (i : Identity) (nd : NodeDefaults) :
    ((r.getItem i nd).1).keys =
      if (findNode? i.toKey r.rosters).isSome then r.keys
      else r.keys ++ [i.toKey] := by
  by_cases hc : (findNode? i.toKey r.rosters).isSome
  · rw [r.getItem_hit i nd hc, if_pos hc]
  · rw [Option.not_isSome_iff_eq_none] at hc
    rw [r.getItem_miss i nd hc]
    simp [Roster.keys, hc]

theorem Roster.keys_nodup_getItem (r : Roster) (i : Identity) (nd : NodeDefaults)
    (h : r.keys.Nodup) : ((r.getItem i nd).1).keys.Nodup := by
  rw [r.keys_getItem i nd]
  by_cases hc : (findNode? i.toKey r.rosters).isSome
  · simpa [hc] using h
  · have hmem : i.toKey ∉ r.keys := by
      rw [Roster.keys, ← findNode?_isSome_iff]
      simpa using hc
    rw [if_neg hc, ← List.concat_eq_append]
    exact List.Nodup.concat hmem h

/-! ### Lemmas about folding `add` over a datastore enumeration -/

theorem foldl_add_findNode?_preserved (l : List Identity) (nd : NodeDefaults)
    (acc : Roster) (k : String) (n : RosterNode)
    (h : findNode? k acc.rosters = some n) :
    findNode? k ((l.foldl (fun a node => a.add node nd) acc)).rosters = some n := by
  induction l generalizing acc with
  | nil => exact h
  | cons i l ih => exact ih _ (acc.findNode?_add_preserved i nd k n h)

theorem foldl_add_nodup (l : List Identity) (nd : NodeDefaults) (acc : Roster)
    (h : acc.keys.Nodup) :
    ((l.foldl (fun a node => a.add node nd) acc)).keys.Nodup := by
  induction l generalizing acc with
  | nil => exact h
  | cons i l ih => exact ih _ (acc.keys_nodup_add i nd h)

theorem Roster.add_flags (r : Roster) (i : Identity) (nd : NodeDefaults)
    (h : ∀ p ∈ r.rosters, p.2.auto_authorize = nd.auth ∧ p.2.auto_subscribe = nd.sub) :
    ∀ p ∈ (r.add i nd).rosters,
      p.2.auto_authorize = nd.auth ∧ p.2.auto_subscribe = nd.sub := by
  by_cases hc : (findNode? i.toKey r.rosters).isSome
  · rw [r.add_of_found i nd hc]; exact h
  · rw [Option.not_isSome_iff_eq_none] at hc
    rw [r.add_of_absent i nd hc]
    intro p hp
    rcases List.mem_append.mp hp with hold | hnew
    · exact h p hold
    · rcases List.mem_singleton.mp hnew with rfl
      exact ⟨rfl, rfl⟩

theorem foldl_add_flags (l : List Identity) (nd : NodeDefaults) (acc : Roster)
    (h : ∀ p ∈ acc.rosters, p.2.auto_authorize = nd.auth ∧ p.2.auto_subscribe = nd.sub) :
    ∀ p ∈ ((l.foldl (fun a node => a.add node nd) acc)).rosters,
      p.2.auto_authorize = nd.auth ∧ p.2.auto_subscribe = nd.sub := by
  induction l generalizing acc with
  | nil => exact h
  | cons i l ih => exact ih _ (acc.add_flags i nd h)

/-! ### Lemmas about `reset` -/

theorem foldl_updateNode_eq (ks : List String) (f : RosterNode → RosterNode)
    (r : Roster) :
    ks.foldl (fun acc k => acc.updateNode k f) r =
      { r with rosters := (ks.foldl
          (fun l k => l.map (fun p => if p.1 = k then (p.1, f p.2) else p)) r.rosters) } := by
  induction ks generalizing r with
  | nil => rfl
  | cons k ks ih => rw [List.foldl_cons, List.foldl_cons, ih]; rfl

theorem keys_foldl_update (ks : List String) (f : RosterNode → RosterNode)
    (l : List (String × RosterNode)) :
    ((ks.foldl (fun l' k => l'.map (fun p => if p.1 = k then (p.1, f p.2) else p)) l)).map
        (fun p => p.1) =
      l.map (fun p => p.1) := by
  induction ks generalizing l with
  | nil => rfl
  | cons k ks ih =>
    rw [List.foldl_cons, ih, keys_map_fst_preserving]
    intro p
    by_cases h : p.1 = k <;> simp [h]

theorem findNode?_foldl_update (ks : List String) (hk : ks.Nodup)
    (f : RosterNode → RosterNode) (l : List (String × RosterNode)) (k : String) :
    findNode? k
        ((ks.foldl (fun l' k' => l'.map (fun p => if p.1 = k' then (p.1, f p.2) else p)) l)) =
      if k ∈ ks then (findNode? k l).map f else findNode? k l := by
  induction ks generalizing l with
  | nil => simp
  | cons k0 ks ih =>
    obtain ⟨hk0, hks⟩ := List.nodup_cons.mp hk
    rw [List.foldl_cons, ih hks]
    by_cases hmem : k ∈ ks
    · have hne : k ≠ k0 := fun e => hk0 (e ▸ hmem)
      simp [hmem, findNode?_map_ne k0 k hne f l, hne]
    · by_cases he : k = k0
      · subst he
        simp [hmem, findNode?_map_self k f l]
      · simp [hmem, he, findNode?_map_ne k0 k he f l]

theorem Roster.keys_resetAll (r : Roster) : (r.resetAll).keys = r.keys := by
  unfold Roster.resetAll
  rw [foldl_updateNode_eq]
  simpa [Roster.keys] using keys_foldl_update r.keys RosterNode.reset r.rosters

theorem Roster.findNode?_resetAll (r : Roster) (h : r.keys.Nodup) (k : String) :
    findNode? k (r.resetAll).rosters =
      if k ∈ r.keys then (findNode? k r.rosters).map RosterNode.reset
      else findNode? k r.rosters := by
  unfold Roster.resetAll
  rw [foldl_updateNode_eq]
  exact findNode?_foldl_update r.keys h RosterNode.reset r.rosters k

/-! ### Lemmas about `set_backend` -/

/-- The intermediate state of `set_backend(db)` after `self.db = db` and the
enumeration loop, before the per-node backend propagation. -/
def Roster.backendFold (r : Roster) (d : Datastore) (nd : NodeDefaults) : Roster :=
  d.entries.foldl (fun acc node => acc.add node nd) { r with db := some d }

theorem Roster.set_backend_some (r : Roster) (d : Datastore) (nd : NodeDefaults) :
    r.set_backend (some d) nd =
      some { r.backendFold d nd with
             rosters := ((r.backendFold d nd)).rosters.map
               (fun p => (p.1, p.2.set_backend d.did)) } := rfl

theorem Roster.keys_set_backend (r : Roster) (d : Datastore) (nd : NodeDefaults)
    (r' : Roster) (h : r.set_backend (some d) nd = some r') :
    r'.keys = ((r.backendFold d nd)).keys := by
  rw [r.set_backend_some d nd] at h
  cases Option.some.inj h
  simp only [Roster.keys]
  exact keys_map_fst_preserving _ _ (fun p => rfl)

theorem Roster.getItem_of_find (r : Roster) (i : Identity) (nd : NodeDefaults)
    (n : RosterNode) (h : findNode? i.toKey r.rosters = some n) :
    r.getItem i nd = (r, some n) := by
  rw [r.getItem_hit i nd (by rw [h]; rfl), h]

/-! ### Claims -/

/-- C1: the claim as stated is false for the code.  The two identity values
`"user@example.com/resource"` (a plain string in full form) and
`"user@example.com"` have the same bare form, yet `__getitem__` keys the
first under its full form (only `JID` objects are normalized) and creates a
second, distinct node for the second, so the mapping is not keyed by the bare
form only. -/
theorem c1_counterexample :
    Identity.bareForm (.str "user@example.com/resource") =
      Identity.bareForm (.str "user@example.com") ∧
    (((Roster.init 0 none ⟨true, true⟩).getItem
        (.str "user@example.com/resource") ⟨true, true⟩).1).keys
      = ["user@example.com/resource"] ∧
    ((((Roster.init 0 none ⟨true, true⟩).getItem
        (.str "user@example.com/resource") ⟨true, true⟩).1).getItem
        (.str "user@example.com") ⟨true, true⟩).2
      ≠ ((Roster.init 0 none ⟨true, true⟩).getItem
        (.str "user@example.com/resource") ⟨true, true⟩).2 ∧
    (((((Roster.init 0 none ⟨true, true⟩).getItem
        (.str "user@example.com/resource") ⟨true, true⟩).1).getItem
        (.str "user@example.com") ⟨true, true⟩).1).keys
      = ["user@example.com/resource", "user@example.com"] := by
  refine ⟨?_, ?_, ?_, ?_⟩ <;> decide

/-- C1 (amended): for identity values presented as `JID` objects, two lookups
with the same bare form return the same node, leave the state untouched the
second time, and the node is stored under the bare form; a full-form plain
string is not normalized and is used verbatim as its own key. -/
theorem c1_bare_keyed_lookup (r : Roster) (nd : NodeDefaults) (j1 j2 : JID)
    (h : j1.bare = j2.bare) :
    ((r.getItem (.jid j1) nd).1).getItem (.jid j2) nd
        = ((r.getItem (.jid j1) nd).1, (r.getItem (.jid j1) nd).2) ∧
    (r.getItem (.jid j1) nd).2
        = findNode? j1.bare (((r.getItem (.jid j1) nd).1)).rosters ∧
    ((r.getItem (.jid j1) nd).2).isSome = true := by
  obtain ⟨hf1, hf2⟩ := r.getItem_found (.jid j1) nd
  have hk1 : Identity.toKey (.jid j1) = j1.bare := rfl
  have hk2 : Identity.toKey (.jid j2) = j1.bare := h.symm
  refine ⟨?_, by rw [← hk1]; exact hf1, hf2⟩
  have hsome :
      (findNode? (Identity.toKey (.jid j2))
        (((r.getItem (.jid j1) nd).1)).rosters).isSome = true := by
    rw [hk2, ← hk1, ← hf1]
    exact hf2
  rw [((r.getItem (.jid j1) nd).1).getItem_hit (.jid j2) nd hsome, hk2, ← hk1, ← hf1]

/-- C1 witness: the amended theorem applied to a full-form and a bare `JID`
for `user@example.com` on an empty collection. -/
theorem c1_bare_keyed_lookup_witness :
    (JID.mk "user@example.com" "resource").bare = (JID.mk "user@example.com" "").bare ∧
    ((((Roster.init 0 none ⟨true, true⟩).getItem
          (.jid (JID.mk "user@example.com" "resource")) ⟨true, true⟩).1).getItem
          (.jid (JID.mk "user@example.com" "")) ⟨true, true⟩
        = (((Roster.init 0 none ⟨true, true⟩).getItem
            (.jid (JID.mk "user@example.com" "resource")) ⟨true, true⟩).1,
           ((Roster.init 0 none ⟨true, true⟩).getItem
            (.jid (JID.mk "user@example.com" "resource")) ⟨true, true⟩).2) ∧
      ((Roster.init 0 none ⟨true, true⟩).getItem
          (.jid (JID.mk "user@example.com" "resource")) ⟨true, true⟩).2
        = findNode? (JID.mk "user@example.com" "resource").bare
            ((((Roster.init 0 none ⟨true, true⟩).getItem
              (.jid (JID.mk "user@example.com" "resource")) ⟨true, true⟩).1)).rosters ∧
      (((Roster.init 0 none ⟨true, true⟩).getItem
          (.jid (JID.mk "user@example.com" "resource")) ⟨true, true⟩).2).isSome = true) :=
  ⟨rfl, c1_bare_keyed_lookup (Roster.init 0 none ⟨true, true⟩) ⟨true, true⟩
    (JID.mk "user@example.com" "resource") (JID.mk "user@example.com" "") rfl⟩

/-- C2: the claim as stated is false for the code.  `add` is a no-op the
second time, but for the full-form plain string
`"user@example.com/resource"` the mapping afterwards holds that full form as
its only key: `i`'s bare form `"user@example.com"` is present zero times, not
exactly once, because `add` normalizes only `JID` instances. -/
theorem c2_counterexample :
    Identity.bareForm (.str "user@example.com/resource") = "user@example.com" ∧
    (((Roster.init 0 none ⟨true, true⟩).add (.str "user@example.com/resource")
        ⟨true, true⟩).add (.str "user@example.com/resource") ⟨true, true⟩).keys
      = ["user@example.com/resource"] ∧
    (((Roster.init 0 none ⟨true, true⟩).add (.str "user@example.com/resource")
        ⟨true, true⟩).add (.str "user@example.com/resource") ⟨true, true⟩).keys.count
      (Identity.bareForm (.str "user@example.com/resource")) = 0 := by
  refine ⟨?_, ?_, ?_⟩ <;> decide

/-- C2 (amended): `add` is idempotent — adding the same identity twice leaves
the state exactly as after the first `add` (the second call mutates nothing),
and the computed map key occurs exactly once in `keys()`; for an identity
presented as a `JID` that key is its bare form, so the bare form occurs
exactly once.  For a full-form plain string the verbatim string, not its bare
form, is the key that occurs once. -/
theorem c2_add_idempotent (r : Roster) (i : Identity) (nd : NodeDefaults)
    (h : r.keys.Nodup) :
    (r.add i nd).add i nd = r.add i nd ∧
    ((r.add i nd).add i nd).keys.count i.toKey = 1 ∧
    ∀ j : JID, i = Identity.jid j →
      ((r.add i nd).add i nd).keys.count j.bare = 1 := by
  have hsome := r.findNode?_add_self i nd
  have heq : (r.add i nd).add i nd = r.add i nd := (r.add i nd).add_of_found i nd hsome
  have hcount : ((r.add i nd).add i nd).keys.count i.toKey = 1 := by
    rw [heq]
    have hnd : (r.add i nd).keys.Nodup := r.keys_nodup_add i nd h
    have hmem : i.toKey ∈ (r.add i nd).keys := by
      rw [Roster.keys, ← findNode?_isSome_iff]
      exact hsome
    exact List.count_eq_one_of_mem hnd hmem
  refine ⟨heq, hcount, fun j hj => ?_⟩
  subst hj
  exact hcount

/-- C2 witness: idempotence of `add` at a concrete full-form `JID` on an
empty collection; the bare form is the key and occurs exactly once. -/
theorem c2_add_idempotent_witness :
    (Roster.init 0 none ⟨true, true⟩).keys.Nodup ∧
    (((Roster.init 0 none ⟨true, true⟩).add
        (.jid (JID.mk "user@example.com" "resource")) ⟨true, true⟩).add
        (.jid (JID.mk "user@example.com" "resource")) ⟨true, true⟩
      = (Roster.init 0 none ⟨true, true⟩).add
        (.jid (JID.mk "user@example.com" "resource")) ⟨true, true⟩ ∧
    ((((Roster.init 0 none ⟨true, true⟩).add
        (.jid (JID.mk "user@example.com" "resource")) ⟨true, true⟩).add
        (.jid (JID.mk "user@example.com" "resource")) ⟨true, true⟩)).keys.count
      (Identity.toKey (.jid (JID.mk "user@example.com" "resource"))) = 1 ∧
    ∀ j : JID, (Identity.jid (JID.mk "user@example.com" "resource"))
        = Identity.jid j →
      ((((Roster.init 0 none ⟨true, true⟩).add
          (.jid (JID.mk "user@example.com" "resource")) ⟨true, true⟩).add
          (.jid (JID.mk "user@example.com" "resource")) ⟨true, true⟩)).keys.count
        j.bare = 1) :=
  ⟨by decide, c2_add_idempotent (Roster.init 0 none ⟨true, true⟩)
    (.jid (JID.mk "user@example.com" "resource")) ⟨true, true⟩ (by decide)⟩

/-- C3: nodes seeded from the datastore at construction keep the node's own
default flags (for every choice of those defaults), while a node created
through `__getitem__` has the collection's current `auto_authorize` and
`auto_subscribe` written into it at creation. -/
theorem c3_default_propagation (x : Nat) (d : Datastore) (nd : NodeDefaults)
    (r : Roster) (i : Identity)
    (h : findNode? i.toKey r.rosters = none) :
    (∀ p ∈ (Roster.init x (some d) nd).rosters,
        p.2.auto_authorize = nd.auth ∧ p.2.auto_subscribe = nd.sub) ∧
    (∃ n, (r.getItem i nd).2 = some n ∧
        n.auto_authorize = r.auto_authorize ∧
        n.auto_subscribe = r.auto_subscribe) := by
  constructor
  · exact foldl_add_flags d.entries nd
      { xmpp := x, db := some d, auto_authorize := true, auto_subscribe := true,
        rosters := [], nextUid := 0 }
      (fun q hq => absurd hq (List.not_mem_nil q))
  · rw [r.getItem_miss i nd h]
    exact ⟨r.freshNode i.toKey, rfl, rfl, rfl⟩

/-- C3 witness: a datastore-seeded collection whose abstract node defaults
are `false` keeps them `false` on the seeded nodes, while a fresh lookup on a
plain collection copies the collection defaults (`true`). -/
theorem c3_default_propagation_witness :
    findNode? (Identity.toKey (.str "c@example.com"))
        ((Roster.init 0 none ⟨false, false⟩)).rosters = none ∧
    ((∀ p ∈ (Roster.init 0 (some ⟨1, [.str "a@example.com", .str "b@example.com"]⟩)
        ⟨false, false⟩).rosters,
        p.2.auto_authorize = (NodeDefaults.mk false false).auth ∧
        p.2.auto_subscribe = (NodeDefaults.mk false false).sub) ∧
    (∃ n, ((Roster.init 0 none ⟨false, false⟩).getItem
          (.str "c@example.com") ⟨false, false⟩).2 = some n ∧
        n.auto_authorize = (Roster.init 0 none ⟨false, false⟩).auto_authorize ∧
        n.auto_subscribe = (Roster.init 0 none ⟨false, false⟩).auto_subscribe)) :=
  ⟨by decide, c3_default_propagation 0 ⟨1, [.str "a@example.com", .str "b@example.com"]⟩
    ⟨false, false⟩ (Roster.init 0 none ⟨false, false⟩) (.str "c@example.com") (by decide)⟩

/-- C4: the collection's defaults are copied at node-creation time, not
live-linked — reassigning `auto_authorize` / `auto_subscribe` on the
collection leaves every stored node untouched, and a node created before the
reassignment still carries (and is returned with) the flag values the
collection had when the node was created. -/
theorem c4_defaults_not_live_linked (r : Roster) (i : Identity)
    (nd : NodeDefaults) (a s : Bool)
    (h : findNode? i.toKey r.rosters = none) :
    (∀ k, findNode? k (((r.setAutoAuthorize a).setAutoSubscribe s)).rosters
        = findNode? k r.rosters) ∧
    (∃ n, (r.getItem i nd).2 = some n ∧
      n.auto_authorize = r.auto_authorize ∧
      n.auto_subscribe = r.auto_subscribe ∧
      ((((r.getItem i nd).1).setAutoAuthorize a).setAutoSubscribe s).getItem i nd
        = ((((r.getItem i nd).1).setAutoAuthorize a).setAutoSubscribe s, some n)) := by
  refine ⟨fun k => rfl, ?_⟩
  rw [r.getItem_miss i nd h]
  refine ⟨r.freshNode i.toKey, rfl, rfl, rfl, ?_⟩
  apply Roster.getItem_of_find
  show findNode? i.toKey (r.rosters ++ [(i.toKey, r.freshNode i.toKey)])
      = some (r.freshNode i.toKey)
  rw [findNode?_append, h]
  simp [findNode?]

/-- C4 witness: a node created with defaults `(true, true)`; the collection's
defaults are then flipped to `false`, and the node keeps and returns
`(true, true)`. -/
theorem c4_defaults_not_live_linked_witness :
    findNode? (Identity.toKey (.str "u@example.com"))
        ((Roster.init 0 none ⟨true, true⟩)).rosters = none ∧
    ((∀ k, findNode? k
        ((((Roster.init 0 none ⟨true, true⟩).setAutoAuthorize false).setAutoSubscribe
          false)).rosters
        = findNode? k ((Roster.init 0 none ⟨true, true⟩)).rosters) ∧
    (∃ n, ((Roster.init 0 none ⟨true, true⟩).getItem (.str "u@example.com")
        ⟨true, true⟩).2 = some n ∧
      n.auto_authorize = (Roster.init 0 none ⟨true, true⟩).auto_authorize ∧
      n.auto_subscribe = (Roster.init 0 none ⟨true, true⟩).auto_subscribe ∧
      (((((Roster.init 0 none ⟨true, true⟩).getItem (.str "u@example.com")
          ⟨true, true⟩).1).setAutoAuthorize false).setAutoSubscribe false).getItem
          (.str "u@example.com") ⟨true, true⟩
        = (((((Roster.init 0 none ⟨true, true⟩).getItem (.str "u@example.com")
            ⟨true, true⟩).1).setAutoAuthorize false).setAutoSubscribe false,
           some n))) :=
  ⟨by decide, c4_defaults_not_live_linked (Roster.init 0 none ⟨true, true⟩)
    (.str "u@example.com") ⟨true, true⟩ false false (by decide)⟩

/-- C5: with a collection holding `{a@example.com, b@example.com}`,
`set_backend(db2)` where `db2.entries` reports `{a@example.com,
c@example.com}` yields keys exactly `{a, b, c}` (in insertion order) and
every node — pre-existing or just added — has had the node-level
`set_backend(db2)` invoked on it exactly once. -/
theorem c5_set_backend_scenario :
    (((((Roster.init 0 none ⟨true, true⟩).add (.str "a@example.com")
          ⟨true, true⟩).add (.str "b@example.com") ⟨true, true⟩)).set_backend
        (some ⟨2, [.str "a@example.com", .str "c@example.com"]⟩) ⟨true, true⟩).map
        Roster.keys
      = some ["a@example.com", "b@example.com", "c@example.com"] ∧
    (((((Roster.init 0 none ⟨true, true⟩).add (.str "a@example.com")
          ⟨true, true⟩).add (.str "b@example.com") ⟨true, true⟩)).set_backend
        (some ⟨2, [.str "a@example.com", .str "c@example.com"]⟩) ⟨true, true⟩).map
        (fun r1 => r1.rosters.all (fun p => p.2.setBackendLog == [2]))
      = some true :=
  ⟨by decide, by decide⟩

/-- C6: `set_backend` with a null/absent datastore fails rather than
completing — the implementation enumerates `self.db.entries(None, {})`
unconditionally, which faults when `db` is `None`. -/
theorem c6_set_backend_null_faults (r : Roster) (nd : NodeDefaults) :
    r.set_backend none nd = none := rfl

/-- C7: `reset()` invokes the node-level `reset()` on every node whose key is
in `keys()` at the start of the call, and the key set afterwards is identical
to the key set before. -/
theorem c7_reset_all_nodes (r : Roster) (h : r.keys.Nodup) :
    (r.resetAll).keys = r.keys ∧
    ∀ k n, findNode? k r.rosters = some n →
      findNode? k (r.resetAll).rosters = some (RosterNode.reset n) := by
  refine ⟨r.keys_resetAll, fun k n hkn => ?_⟩
  rw [r.findNode?_resetAll h k]
  have hmem : k ∈ r.keys := by
    rw [Roster.keys, ← findNode?_isSome_iff, hkn]
    rfl
  rw [if_pos hmem, hkn]
  rfl

/-- C7 witness: resetting a two-node collection keeps the keys and applies
the node-level `reset` to each stored node. -/
theorem c7_reset_all_nodes_witness :
    (((Roster.init 0 none ⟨true, true⟩).add (.str "a@example.com")
        ⟨true, true⟩).add (.str "b@example.com") ⟨true, true⟩).keys.Nodup ∧
    (((((Roster.init 0 none ⟨true, true⟩).add (.str "a@example.com")
        ⟨true, true⟩).add (.str "b@example.com") ⟨true, true⟩).resetAll).keys
      = (((Roster.init 0 none ⟨true, true⟩).add (.str "a@example.com")
        ⟨true, true⟩).add (.str "b@example.com") ⟨true, true⟩).keys ∧
    ∀ k n, findNode? k ((((Roster.init 0 none ⟨true, true⟩).add
          (.str "a@example.com") ⟨true, true⟩).add (.str "b@example.com")
          ⟨true, true⟩)).rosters = some n →
      findNode? k (((((Roster.init 0 none ⟨true, true⟩).add
          (.str "a@example.com") ⟨true, true⟩).add (.str "b@example.com")
          ⟨true, true⟩)).resetAll).rosters = some (RosterNode.reset n)) :=
  ⟨by decide, c7_reset_all_nodes (((Roster.init 0 none ⟨true, true⟩).add
      (.str "a@example.com") ⟨true, true⟩).add (.str "b@example.com")
      ⟨true, true⟩) (by decide)⟩

/-- C8: the claim as stated is false for the code.  The empty string fails
normalization (it carries no identity at all), yet both `add` and
`__getitem__` silently proceed: no error is signalled and the invalid value
becomes a mapping key. -/
theorem c8_counterexample :
    Identity.malformed (.str "") = true ∧
    ((Roster.init 0 none ⟨true, true⟩).add (.str "") ⟨true, true⟩).keys = [""] ∧
    (((Roster.init 0 none ⟨true, true⟩).getItem (.str "") ⟨true, true⟩).2).isSome
      = true ∧
    (((Roster.init 0 none ⟨true, true⟩).getItem (.str "") ⟨true, true⟩).1).keys
      = [""] := by
  refine ⟨?_, ?_, ?_, ?_⟩ <;> decide

/-- C8 (amended): the identity-accepting operations perform no validation at
this layer — every string value, malformed or not, is silently accepted and
used verbatim as a mapping key, and both operations always succeed; no
`InvalidIdentity` error exists in this core. -/
theorem c8_no_validation (r : Roster) (s : String) (nd : NodeDefaults) :
    s ∈ (r.add (.str s) nd).keys ∧
    ((r.getItem (.str s) nd).2).isSome = true ∧
    s ∈ ((r.getItem (.str s) nd).1).keys := by
  obtain ⟨hf1, hf2⟩ := r.getItem_found (.str s) nd
  have hf1' : (r.getItem (.str s) nd).2
      = findNode? s (((r.getItem (.str s) nd).1)).rosters := by
    simpa [Identity.toKey_str] using hf1
  refine ⟨?_, hf2, ?_⟩
  · rw [Roster.keys, ← findNode?_isSome_iff]
    simpa [Identity.toKey_str] using r.findNode?_add_self (.str s) nd
  · rw [Roster.keys, ← findNode?_isSome_iff, ← hf1']
    exact hf2

/-- C9: the claim as stated ("at most one node per bare identity") is false
for the code.  Looking up the full-form plain string
`"user@example.com/resource"` and then the bare string `"user@example.com"`
yields a reachable state holding two keys — hence two distinct stored nodes —
whose bare form is the same identity `"user@example.com"`. -/
theorem c9_counterexample :
    ((((((Roster.init 0 none ⟨true, true⟩).getItem
        (.str "user@example.com/resource") ⟨true, true⟩).1).getItem
        (.str "user@example.com") ⟨true, true⟩).1).keys.map bareOfString).count
      "user@example.com" = 2 ∧
    (findNode? "user@example.com/resource"
        (((((Roster.init 0 none ⟨true, true⟩).getItem
          (.str "user@example.com/resource") ⟨true, true⟩).1).getItem
          (.str "user@example.com") ⟨true, true⟩).1).rosters).isSome = true ∧
    (findNode? "user@example.com"
        (((((Roster.init 0 none ⟨true, true⟩).getItem
          (.str "user@example.com/resource") ⟨true, true⟩).1).getItem
          (.str "user@example.com") ⟨true, true⟩).1).rosters).isSome = true ∧
    findNode? "user@example.com/resource"
        (((((Roster.init 0 none ⟨true, true⟩).getItem
          (.str "user@example.com/resource") ⟨true, true⟩).1).getItem
          (.str "user@example.com") ⟨true, true⟩).1).rosters
      ≠ findNode? "user@example.com"
        (((((Roster.init 0 none ⟨true, true⟩).getItem
          (.str "user@example.com/resource") ⟨true, true⟩).1).getItem
          (.str "user@example.com") ⟨true, true⟩).1).rosters := by
  refine ⟨?_, ?_, ?_, ?_⟩ <;> decide

/-- C9 (amended): the invariant every operation actually preserves — at most
one node per mapping key (the bare form for `JID` inputs, the verbatim string
otherwise): `keys()` stays duplicate-free, and once a node is stored under a
key no operation removes it or replaces it with a different node object (the
stored node's creation stamp is preserved by `add`, `__getitem__`, `reset`
and `set_backend`).  Two nodes can coexist for one bare identity when a
full-form plain string is used as an input. -/
theorem c9_unique_persistent_nodes (r : Roster) (i : Identity)
    (nd : NodeDefaults) (d : Datastore) (x : Nat) (db : Option Datastore)
    (h : r.keys.Nodup) :
    (Roster.init x db nd).keys.Nodup ∧
    (r.add i nd).keys.Nodup ∧
    ((r.getItem i nd).1).keys.Nodup ∧
    (r.resetAll).keys.Nodup ∧
    (∀ r', r.set_backend (some d) nd = some r' → r'.keys.Nodup) ∧
    (∀ k n, findNode? k r.rosters = some n →
      (∃ n1, findNode? k (r.add i nd).rosters = some n1 ∧ n1.uid = n.uid) ∧
      (∃ n2, findNode? k ((r.getItem i nd).1).rosters = some n2 ∧ n2.uid = n.uid) ∧
      (∃ n3, findNode? k (r.resetAll).rosters = some n3 ∧ n3.uid = n.uid) ∧
      (∀ r', r.set_backend (some d) nd = some r' →
        ∃ n4, findNode? k r'.rosters = some n4 ∧ n4.uid = n.uid)) := by
  refine ⟨?_, r.keys_nodup_add i nd h, r.keys_nodup_getItem i nd h, ?_, ?_, ?_⟩
  · cases db with
    | none => simp [Roster.init, Roster.keys]
    | some d0 =>
      exact foldl_add_nodup d0.entries nd
        { xmpp := x, db := some d0, auto_authorize := true, auto_subscribe := true,
          rosters := [], nextUid := 0 }
        (by simp [Roster.keys])
  · rw [r.keys_resetAll]
    exact h
  · intro r' hr'
    rw [r.keys_set_backend d nd r' hr']
    exact foldl_add_nodup d.entries nd { r with db := some d } h
  · intro k n hkn
    refine ⟨⟨n, r.findNode?_add_preserved i nd k n hkn, rfl⟩, ?_, ?_, ?_⟩
    · by_cases hc : (findNode? i.toKey r.rosters).isSome
      · rw [r.getItem_hit i nd hc]
        exact ⟨n, hkn, rfl⟩
      · rw [Option.not_isSome_iff_eq_none] at hc
        rw [r.getItem_miss i nd hc]
        refine ⟨n, ?_, rfl⟩
        show findNode? k (r.rosters ++ [(i.toKey, r.freshNode i.toKey)]) = some n
        rw [findNode?_append, hkn]
    · rw [r.findNode?_resetAll h k]
      have hmem : k ∈ r.keys := by
        rw [Roster.keys, ← findNode?_isSome_iff, hkn]
        rfl
      rw [if_pos hmem, hkn]
      exact ⟨RosterNode.reset n, rfl, rfl⟩
    · intro r' hr'
      rw [r.set_backend_some d nd] at hr'
      cases Option.some.inj hr'
      refine ⟨n.set_backend d.did, ?_, rfl⟩
      show findNode? k ((r.backendFold d nd).rosters.map
        (fun p => (p.1, p.2.set_backend d.did))) = some (n.set_backend d.did)
      rw [findNode?_map_value k (fun n0 => n0.set_backend d.did)
        (r.backendFold d nd).rosters]
      have hpres : findNode? k (r.backendFold d nd).rosters = some n :=
        foldl_add_findNode?_preserved d.entries nd { r with db := some d } k n hkn
      rw [hpres]
      rfl

/-- C9 witness: the invariant theorem applied to a concrete two-node
collection, a fresh identity, a concrete datastore for `set_backend`, and a
datastore-seeded construction. -/
theorem c9_unique_persistent_nodes_witness :
    (((Roster.init 0 none ⟨true, true⟩).add (.str "a@example.com")
        ⟨true, true⟩).add (.str "b@example.com") ⟨true, true⟩).keys.Nodup ∧
    ((Roster.init 7 (some ⟨1, [.str "z@example.com"]⟩) ⟨true, true⟩).keys.Nodup ∧
    ((((Roster.init 0 none ⟨true, true⟩).add (.str "a@example.com")
        ⟨true, true⟩).add (.str "b@example.com") ⟨true, true⟩).add
        (.str "c@example.com") ⟨true, true⟩).keys.Nodup ∧
    (((((Roster.init 0 none ⟨true, true⟩).add (.str "a@example.com")
        ⟨true, true⟩).add (.str "b@example.com") ⟨true, true⟩).getItem
        (.str "c@example.com") ⟨true, true⟩).1).keys.Nodup ∧
    ((((Roster.init 0 none ⟨true, true⟩).add (.str "a@example.com")
        ⟨true, true⟩).add (.str "b@example.com") ⟨true, true⟩).resetAll).keys.Nodup ∧
    (∀ r', (((Roster.init 0 none ⟨true, true⟩).add (.str "a@example.com")
        ⟨true, true⟩).add (.str "b@example.com") ⟨true, true⟩).set_backend
        (some ⟨2, [.str "a@example.com", .str "d@example.com"]⟩) ⟨true, true⟩
          = some r' → r'.keys.Nodup) ∧
    (∀ k n, findNode? k ((((Roster.init 0 none ⟨true, true⟩).add
          (.str "a@example.com") ⟨true, true⟩).add (.str "b@example.com")
          ⟨true, true⟩)).rosters = some n →
      (∃ n1, findNode? k (((((Roster.init 0 none ⟨true, true⟩).add
          (.str "a@example.com") ⟨true, true⟩).add (.str "b@example.com")
          ⟨true, true⟩)).add (.str "c@example.com") ⟨true, true⟩).rosters
          = some n1 ∧ n1.uid = n.uid) ∧
      (∃ n2, findNode? k (((((Roster.init 0 none ⟨true, true⟩).add
          (.str "a@example.com") ⟨true, true⟩).add (.str "b@example.com")
          ⟨true, true⟩).getItem (.str "c@example.com") ⟨true, true⟩).1).rosters
          = some n2 ∧ n2.uid = n.uid) ∧
      (∃ n3, findNode? k (((((Roster.init 0 none ⟨true, true⟩).add
          (.str "a@example.com") ⟨true, true⟩).add (.str "b@example.com")
          ⟨true, true⟩)).resetAll).rosters = some n3 ∧ n3.uid = n.uid) ∧
      (∀ r', (((Roster.init 0 none ⟨true, true⟩).add (.str "a@example.com")
          ⟨true, true⟩).add (.str "b@example.com") ⟨true, true⟩).set_backend
          (some ⟨2, [.str "a@example.com", .str "d@example.com"]⟩) ⟨true, true⟩
            = some r' →
        ∃ n4, findNode? k r'.rosters = some n4 ∧ n4.uid = n.uid))) :=
  ⟨by decide, c9_unique_persistent_nodes
    (((Roster.init 0 none ⟨true, true⟩).add (.str "a@example.com")
      ⟨true, true⟩).add (.str "b@example.com") ⟨true, true⟩)
    (.str "c@example.com") ⟨true, true⟩
    ⟨2, [.str "a@example.com", .str "d@example.com"]⟩ 7
    (some ⟨1, [.str "z@example.com"]⟩) (by decide)⟩

/-- C10: looking up an identity whose key is already present is a pure read:
`__getitem__` returns the stored node and the whole collection state —
mapping, every node's flags included — is left exactly as it was. -/
theorem c10_lookup_pure_read (r : Roster) (i : Identity) (nd : NodeDefaults)
    (h : (findNode? i.toKey r.rosters).isSome = true) :
    r.getItem i nd = (r, findNode? i.toKey r.rosters) :=
  r.getItem_hit i nd h

/-- C10 witness: looking up an existing key on a concrete one-node collection
returns the stored node and the unchanged state. -/
theorem c10_lookup_pure_read_witness :
    (findNode? (Identity.toKey (.str "a@example.com"))
      (((Roster.init 0 none ⟨true, true⟩).add (.str "a@example.com")
        ⟨true, true⟩)).rosters).isSome = true ∧
    ((Roster.init 0 none ⟨true, true⟩).add (.str "a@example.com")
        ⟨true, true⟩).getItem (.str "a@example.com") ⟨true, true⟩
      = ((Roster.init 0 none ⟨true, true⟩).add (.str "a@example.com") ⟨true, true⟩,
         findNode? (Identity.toKey (.str "a@example.com"))
           (((Roster.init 0 none ⟨true, true⟩).add (.str "a@example.com")
             ⟨true, true⟩)).rosters) :=
  ⟨by decide, c10_lookup_pure_read
    ((Roster.init 0 none ⟨true, true⟩).add (.str "a@example.com") ⟨true, true⟩)
    (.str "a@example.com") ⟨true, true⟩ (by decide)⟩

end SleekRoster
